import Mathlib

/- Shallow embedding of the SCRAM-SHA-1 authenticator of
   src/mongodb-cwal-rs-master/src/auth.rs.

   Everything that lives in the repository (the conversation state machine,
   message construction, parsing of the fixed text layouts, the order of the
   checks, the error mapping and the verification loop) is translated
   directly from the source.  External collaborators are modelled as
   parameters of the development: the cryptographic primitives (md5, sha1,
   Hmac-Sha1, pbkdf2), base64 encoding/decoding (data_encoding::BASE64),
   utf8 decoding of received byte vectors (String::from_utf8) are fields of
   an `Externals` structure, and the transport (Authenticator::command) is a
   function argument.  Replies to the repeated empty continuation command of
   the final phase are modelled as a list of documents.  -/

namespace MongoAuth

/-- Sub-kinds of the malicious-server error, from error::MaliciousServerErrorType. -/
inductive MaliciousServerErrorType where
  | invalidRnonce
  | noServerSignature
  | invalidServerSignature
deriving DecidableEq, Repr

/-- Error variants of error::Error that the authenticator constructs or forwards. -/
inductive Err where
  | defaultError (s : String)
  | maliciousServer (k : MaliciousServerErrorType)
  | operationError (s : String)
  | responseError (s : String)
deriving DecidableEq, Repr

/-- Bson values as far as the authenticator inspects them: integers, strings,
booleans, binary blobs, and a constructor standing for every other Bson
variant (the conversation identifier is treated as opaque, so any value can
appear there). -/
inductive BsonValue where
  | int (n : Int)
  | str (s : String)
  | bool (b : Bool)
  | binary (bytes : List Nat)
  | other (n : Nat)
deriving DecidableEq, Repr

/-- A reply or command document: ordered key-value pairs, `dget` returns the
first binding of a key, as bson::Document::get does. -/
abbrev Document := List (String × BsonValue)

/-- Document lookup, first binding wins. -/
def dget : Document → String → Option BsonValue
  | [], _ => none
  | (k, v) :: rest, key => if k = key then some v else dget rest key

/-- The completion test of the final loop:
if let Some(Bson::Boolean(true)) = doc.get("done"). -/
def doneTrue (d : Document) : Bool :=
  match dget d "done" with
  | some (.bool true) => true
  | _ => false

/-- True when the document carries no binary `payload` field, so the
verification step of the final loop skips it. -/
def noBinaryPayload (d : Document) : Bool :=
  match dget d "payload" with
  | some (.binary _) => false
  | _ => true

/-- Whether an Except value is a success. -/
def exceptOk {α : Type} : Except Err α → Bool
  | .ok _ => true
  | .error _ => false

/-- Whether an Except value is a ResponseError (the response-format error kind). -/
def isRespErr {α : Type} : Except Err α → Bool
  | .error (.responseError _) => true
  | _ => false

/-- Utf8 encoding of a single code point, used to model Rust String::into_bytes. -/
def utf8EncodeCharNat (n : Nat) : List Nat :=
  if n < 0x80 then [n]
  else if n < 0x800 then [0xC0 ||| (n >>> 6), 0x80 ||| (n &&& 0x3F)]
  else if n < 0x10000 then
    [0xE0 ||| (n >>> 12), 0x80 ||| ((n >>> 6) &&& 0x3F), 0x80 ||| (n &&& 0x3F)]
  else
    [0xF0 ||| (n >>> 18), 0x80 ||| ((n >>> 12) &&& 0x3F),
     0x80 ||| ((n >>> 6) &&& 0x3F), 0x80 ||| (n &&& 0x3F)]

/-- The bytes of a Rust String (utf8), modelling String::into_bytes / as_bytes. -/
def strBytes (s : String) : List Nat :=
  s.data.flatMap fun c => utf8EncodeCharNat c.toNat

/-- Lower-case hex digit, as the hex crate uses. -/
def hexDigit (n : Nat) : Char :=
  Char.ofNat (if n < 10 then 48 + n else 87 + n)

/-- Lower-case hex encoding of a byte list, modelling hex::encode. -/
def hexEncode (bytes : List Nat) : String :=
  String.mk (bytes.flatMap fun b => [hexDigit (b / 16), hexDigit (b % 16)])

/-- Rust str::starts_with on strings. -/
def strStartsWith (s pre : String) : Bool :=
  pre.data.isPrefixOf s.data

/-- Ascii whitespace, where the format scanner stops a capture. -/
def isWsChar (c : Char) : Bool :=
  c == ' ' || c == '\t' || c == '\n' || c == '\r'

/-- Match a literal character sequence at the head of the input, returning the
rest.  Models the literal parts of a scan_fmt format string. -/
def litMatch : List Char → List Char → Option (List Char)
  | [], cs => some cs
  | _ :: _, [] => none
  | l :: ls, c :: cs => if c = l then litMatch ls cs else none

/-- Capture a run of characters that are neither whitespace nor the stopping
character (the literal that follows the capture in the format string).
Returns the captured run and the remaining input. -/
def captureRun (stop : Option Char) : List Char → List Char × List Char
  | [] => ([], [])
  | c :: rest =>
    if isWsChar c || stop == some c then ([], c :: rest)
    else
      let p := captureRun stop rest
      (c :: p.1, p.2)

/-- Accumulate decimal digits. -/
def digitsVal : List Char → Nat → Nat
  | [], acc => acc
  | c :: cs, acc => digitsVal cs (acc * 10 + (c.toNat - 48))

/-- Rust u32::from_str on a captured token: optional leading plus sign, at
least one digit, all digits, value below 2^32. -/
def parseU32 (cs : List Char) : Option Nat :=
  let ds := match cs with
            | '+' :: rest => rest
            | _ => cs
  if ds.isEmpty then none
  else if ds.all Char.isDigit then
    let n := digitsVal ds 0
    if n < 4294967296 then some n else none
  else none

/-- Model of the external scan_fmt macro applied to the server-first text with
the fixed format string of auth.rs (fields r=, s=, i= separated by commas):
each capture runs to the next literal of the format or to whitespace, a
later literal mismatch leaves the earlier captures in place, and the third
capture is parsed as a u32. -/
def scanServerFirst (s : String) : Option String × Option String × Option Nat :=
  match litMatch ['r', '='] s.data with
  | none => (none, none, none)
  | some r1 =>
    let p1 := captureRun (some ',') r1
    if p1.1.isEmpty then (none, none, none)
    else
      let rn := String.mk p1.1
      match litMatch [',', 's', '='] p1.2 with
      | none => (some rn, none, none)
      | some r2 =>
        let p2 := captureRun (some ',') r2
        if p2.1.isEmpty then (some rn, none, none)
        else
          let sb := String.mk p2.1
          match litMatch [',', 'i', '='] p2.2 with
          | none => (some rn, some sb, none)
          | some r3 =>
            let p3 := captureRun none r3
            (some rn, some sb, parseU32 p3.1)

/-- Model of the external scan_fmt macro applied to the server-final payload
with the format of auth.rs (a single capture after the literal v=). -/
def scanV (s : String) : Option String :=
  match litMatch ['v', '='] s.data with
  | none => none
  | some rest =>
    let cap := captureRun none rest
    if cap.1.isEmpty then none else some (String.mk cap.1)

/-- The external collaborators of auth.rs: the cryptographic crates, base64,
and utf8 decoding of received byte vectors.  The development is parametric
in them; theorems that hold for every instance hold in particular for the
real primitives. -/
structure Externals where
  md5 : List Nat → List Nat
  sha1 : List Nat → List Nat
  hmacSha1 : List Nat → List Nat → List Nat
  pbkdf2HmacSha1 : List Nat → List Nat → Nat → Nat → List Nat
  b64encode : List Nat → String
  b64decode : String → Except String (List Nat)
  utf8decode : List Nat → Option String

/-- InitialData of auth.rs: the client-first bare message, the server-first
text, the client nonce and the opaque conversation identifier. -/
structure InitialData where
  message : String
  response : String
  nonce : String
  conversation_id : BsonValue
deriving DecidableEq, Repr

/-- AuthData of auth.rs: the salted password, the auth message and the reply
document received after the client-final message. -/
structure AuthData where
  salted_password : List Nat
  message : String
  response : Document
deriving DecidableEq, Repr

/-- The client-first bare message of Authenticator::start:
format n=user,r=nonce. -/
def clientFirstBare (user nonce : String) : String :=
  "n=" ++ user ++ ",r=" ++ nonce

/-- The saslStart command document of Authenticator::start, with the GS2
header n,, prepended to the bare message. -/
def startDoc (user nonce : String) : Document :=
  [("saslStart", .int 1),
   ("autoAuthorize", .int 1),
   ("payload", .binary (strBytes ("n,," ++ clientFirstBare user nonce))),
   ("mechanism", .str "SCRAM-SHA-1")]

/-- Authenticator::start.  The nonce argument is the outcome of
TextNonce::sized(64) (a failing generation carries the error string), and
transport stands for self.command. -/
def start (E : Externals) (user : String) (nonceRes : Except String String)
    (transport : Document → Except Err Document) : Except Err InitialData :=
  match nonceRes with
  | .error s => .error (.defaultError s)
  | .ok nonce =>
    match transport (startDoc user nonce) with
    | .error e => .error e
    | .ok doc =>
      match dget doc "payload" with
      | some (.binary data) =>
        match dget doc "conversationId" with
        | none => .error (.responseError "No conversationId returned")
        | some id =>
          match E.utf8decode data with
          | none => .error (.responseError "Invalid UTF-8 payload returned")
          | some response =>
            .ok ⟨clientFirstBare user nonce, response, nonce, id⟩
      | _ => .error (.responseError "Invalid payload returned")

/-- The hashed password of Authenticator::next:
hex::encode(Md5::digest(password.as_bytes())). -/
def codeHashedPassword (E : Externals) (password : String) : String :=
  hexEncode (E.md5 (strBytes password))

/-- The client key of Authenticator::next: HmacSha1 keyed with the salted
password over the bytes of the literal Client Key. -/
def clientKey (E : Externals) (salted_password : List Nat) : List Nat :=
  E.hmacSha1 salted_password (strBytes "Client Key")

/-- The stored key of Authenticator::next: Sha1 of the client key. -/
def storedKey (E : Externals) (salted_password : List Nat) : List Nat :=
  E.sha1 (clientKey E salted_password)

/-- The client signature of Authenticator::next: HmacSha1 keyed with the
stored key over the auth message bytes. -/
def clientSignature (E : Externals) (salted_password : List Nat)
    (auth_message : String) : List Nat :=
  E.hmacSha1 (storedKey E salted_password) (strBytes auth_message)

/-- The proof of Authenticator::next: byte-wise xor of client key and client
signature. -/
def proofBytes (E : Externals) (salted_password : List Nat)
    (auth_message : String) : List Nat :=
  List.zipWith Nat.xor (clientKey E salted_password)
    (clientSignature E salted_password auth_message)

/-- The saslContinue command document of Authenticator::next. -/
def nextDoc (payload : List Nat) (conversation_id : BsonValue) : Document :=
  [("saslContinue", .int 1),
   ("payload", .binary payload),
   ("conversationId", conversation_id)]

/-- The outcome of the computation of Authenticator::next before the command
is sent: the document to send, the salted password and the auth message. -/
structure NextOut where
  sendDoc : Document
  salted_password : List Nat
  auth_message : String
deriving DecidableEq, Repr

/-- The computation of Authenticator::next up to the transport call,
translated line by line: parse the server-first text, check the returned
nonce against the client nonce, decode the salt, derive the keys, build the
auth message and the proof, and assemble the saslContinue document. -/
def nextCompute (E : Externals) (password : String) (initial : InitialData) :
    Except Err NextOut :=
  let parsed := scanServerFirst initial.response
  match parsed.1 with
  | none => .error (.responseError "Invalid rnonce returned")
  | some rnonce_b64 =>
    if !strStartsWith rnonce_b64 initial.nonce then
      .error (.maliciousServer .invalidRnonce)
    else
      match parsed.2.1 with
      | none => .error (.responseError "Invalid salt returned")
      | some salt_b64 =>
        match E.b64decode salt_b64 with
        | .error e => .error (.responseError ("Invalid base64 salt returned: " ++ e))
        | .ok salt =>
          match parsed.2.2 with
          | none => .error (.responseError "Invalid iteration count returned")
          | some i =>
            let hashed_password := codeHashedPassword E password
            let salted_password := E.pbkdf2HmacSha1 (strBytes hashed_password) salt i 20
            let client_key := clientKey E salted_password
            let without_proof := "c=biws,r=" ++ rnonce_b64
            let auth_message :=
              initial.message ++ "," ++ initial.response ++ "," ++ without_proof
            let client_signature := clientSignature E salted_password auth_message
            if client_key.length ≠ client_signature.length then
              .error (.defaultError "Generated client key and/or client signature is invalid")
            else
              let b64_proof := E.b64encode (proofBytes E salted_password auth_message)
              let final_message := without_proof ++ ",p=" ++ b64_proof
              .ok ⟨nextDoc (strBytes final_message) initial.conversation_id,
                   salted_password, auth_message⟩

/-- Authenticator::next: the pure computation followed by the transport call;
the reply document is stored unaltered in AuthData. -/
def next (E : Externals) (password : String) (initial : InitialData)
    (transport : Document → Except Err Document) : Except Err AuthData :=
  match nextCompute E password initial with
  | .error e => .error e
  | .ok out =>
    match transport out.sendDoc with
    | .error e => .error e
    | .ok resp => .ok ⟨out.salted_password, out.auth_message, resp⟩

/-- The empty-payload saslContinue document of Authenticator::finish. -/
def finalDoc (conversation_id : BsonValue) : Document :=
  [("saslContinue", .int 1),
   ("payload", .binary []),
   ("conversationId", conversation_id)]

/-- The server key of Authenticator::finish: HmacSha1 keyed with the salted
password over the bytes of the literal Server Key. -/
def serverKey (E : Externals) (salted_password : List Nat) : List Nat :=
  E.hmacSha1 salted_password (strBytes "Server Key")

/-- The server signature of Authenticator::finish: HmacSha1 keyed with the
server key over the auth message bytes. -/
def serverSignature (E : Externals) (salted_password : List Nat)
    (auth_message : String) : List Nat :=
  E.hmacSha1 (serverKey E salted_password) (strBytes auth_message)

/-- The verification step at the top of the loop of Authenticator::finish:
when the current reply carries a binary payload, decode it as utf8, extract
the v= field, and compare it with the base64 encoding of the server
signature; a reply without a binary payload is skipped. -/
def verifyReply (E : Externals) (ssig : List Nat) (doc : Document) :
    Except Err Unit :=
  match dget doc "payload" with
  | some (.binary payload) =>
    match E.utf8decode payload with
    | none => .error (.responseError "Invalid UTF-8 payload returned")
    | some payload_str =>
      match scanV payload_str with
      | none => .error (.maliciousServer .noServerSignature)
      | some verifier =>
        if verifier ≠ E.b64encode ssig then
          .error (.maliciousServer .invalidServerSignature)
        else .ok ()
  | _ => .ok ()

/-- The loop of Authenticator::finish, unrolled on the list of replies that
the transport returns to the successive empty continuation commands: verify
the current reply, then obtain the next reply (an exhausted list is the
cursor returning no document, the OperationError of command) and succeed
when its done flag is the boolean true. -/
def finishLoop (E : Externals) (ssig : List Nat) :
    Document → List Document → Except Err Unit
  | doc, [] =>
    match verifyReply E ssig doc with
    | .error e => .error e
    | .ok _ => .error (.operationError "(Auth) failed to execute command")
  | doc, d :: rest =>
    match verifyReply E ssig doc with
    | .error e => .error e
    | .ok _ => if doneTrue d then .ok () else finishLoop E ssig d rest

/-- Authenticator::finish: compute the server signature once, then run the
verification loop starting from the reply stored in AuthData.  The
conversation identifier only enters the empty continuation document
(finalDoc), whose replies the list models. -/
def finish (E : Externals) (conversation_id : BsonValue) (auth_data : AuthData)
    (replies : List Document) : Except Err Unit :=
  finishLoop E (serverSignature E auth_data.salted_password auth_data.message)
    auth_data.response replies

/-- The full password of Authenticator::auth: user, the literal separator
:mongo:, and the password. -/
def fullPassword (user password : String) : String :=
  user ++ ":mongo:" ++ password

/-- Authenticator::auth: start, then next with the full password, then finish
with the conversation identifier extracted by start. -/
def auth (E : Externals) (user password : String)
    (nonceRes : Except String String)
    (transport : Document → Except Err Document)
    (replies : List Document) : Except Err Unit :=
  match start E user nonceRes transport with
  | .error e => .error e
  | .ok initial =>
    match next E (fullPassword user password) initial transport with
    | .error e => .error e
    | .ok auth_data => finish E initial.conversation_id auth_data replies

/-- Reference definition following the words of the spec: hashed_password is
the lower-case hex of the MD5 digest of user, the literal separator
:mongo:, and password. -/
def specHashedPassword (E : Externals) (user password : String) : String :=
  hexEncode (E.md5 (strBytes (user ++ ":mongo:" ++ password)))

/-- Reference definition following the words of the spec: salted_key is
PBKDF2-HMAC-SHA1 of the hashed password bytes with the given salt and
iteration count, 20 output bytes. -/
def specSaltedKey (E : Externals) (user password : String) (salt : List Nat)
    (i : Nat) : List Nat :=
  E.pbkdf2HmacSha1 (strBytes (specHashedPassword E user password)) salt i 20

/-- Whether a parsed rnonce field passes the prefix check against the client
nonce (an absent field passes vacuously). -/
def rnonceOk (rq : Option String) (nonce : String) : Bool :=
  match rq with
  | some r => strStartsWith r nonce
  | none => true

/-- Whether the parsed salt field is present but fails base64 decoding. -/
def saltDecodeFails (E : Externals) (sq : Option String) : Bool :=
  match sq with
  | some sb => match E.b64decode sb with
               | .error _ => true
               | .ok _ => false
  | none => false

/-- A concrete instance of the external collaborators, used to evaluate the
development on closed inputs.  The theorems of this file are parametric in
the Externals instance, so any instance is admissible here. -/
def testExternals : Externals where
  md5 := fun bs => List.replicate 16 (bs.length % 256)
  sha1 := fun bs => List.replicate 20 (bs.length % 256)
  hmacSha1 := fun k m => List.replicate 20 ((k.length + m.length) % 256)
  pbkdf2HmacSha1 := fun pw salt i dk =>
    List.replicate dk ((pw.length + salt.length + i) % 256)
  b64encode := fun bs => String.mk (List.replicate bs.length 'x')
  b64decode := fun s => if s = "QQ==" then .ok [65] else .error "invalid symbol"
  utf8decode := fun bs =>
    if bs.all (fun b => b < 128) then
      some (String.mk (bs.map fun b => Char.ofNat b))
    else none

/-- A concrete start reply used to evaluate the development. -/
def wStartReply : Document :=
  [("payload", .binary (strBytes "r=N1,s=QQ==,i=2")), ("conversationId", .other 7)]

/-- The InitialData produced by start on wStartReply with user u and nonce N. -/
def wInitial : InitialData := ⟨"n=u,r=N", "r=N1,s=QQ==,i=2", "N", .other 7⟩

/-- The NextOut produced by nextCompute on wInitial with the full password of
user u and password p, under testExternals. -/
def wNextOut : NextOut :=
  ⟨nextDoc (strBytes "c=biws,r=N1,p=xxxxxxxxxxxxxxxxxxxx") (.other 7),
   List.replicate 20 35, "n=u,r=N,r=N1,s=QQ==,i=2,c=biws,r=N1"⟩

/-- The AuthData produced by next from wInitial when the transport replies
with the empty document. -/
def wAuthData : AuthData :=
  ⟨List.replicate 20 35, "n=u,r=N,r=N1,s=QQ==,i=2,c=biws,r=N1", []⟩

/-- A reply document whose done flag is the boolean true. -/
def wDoneDoc : Document := [("done", .bool true)]

/-- An InitialData whose server-first text has a returned nonce that does not
extend the client nonce and no salt or iteration fields. -/
def wBadInitial : InitialData := ⟨"n=u,r=N", "r=X", "N", .other 7⟩

/-- An InitialData whose server-first text matches no field of the layout. -/
def wNoParse : InitialData := ⟨"n=u,r=N", "x", "N", .other 7⟩

/-- Byte-wise xor is cancelled by xoring with the same list again. -/
theorem zipWith_xor_cancel (a b : List Nat) (h : a.length = b.length) :
    List.zipWith Nat.xor (List.zipWith Nat.xor a b) b = a := by
  induction a generalizing b with
  | nil => simp
  | cons x xs ih =>
    cases b with
    | nil => simp at h
    | cons y ys =>
      have h' : xs.length = ys.length := by simpa using h
      simp only [List.zipWith, List.cons.injEq]
      refine ⟨?_, ih ys h'⟩
      show x ^^^ y ^^^ y = x
      rw [Nat.xor_assoc, Nat.xor_self, Nat.xor_zero]

/-- The verification step reads only the payload field of the reply. -/
theorem verifyReply_congr (E : Externals) (ssig : List Nat) (d d' : Document)
    (hp : dget d "payload" = dget d' "payload") :
    verifyReply E ssig d = verifyReply E ssig d' := by
  unfold verifyReply
  rw [hp]

/-- A reply without a binary payload passes the verification step untouched. -/
theorem verifyReply_skip (E : Externals) (ssig : List Nat) (d : Document)
    (h : noBinaryPayload d = true) :
    verifyReply E ssig d = .ok () := by
  unfold noBinaryPayload at h
  unfold verifyReply
  cases hv : dget d "payload" with
  | none => rfl
  | some v =>
    rw [hv] at h
    cases v <;> first | rfl | simp at h

/-- A verification error on the current reply is the result of the loop. -/
theorem finishLoop_error (E : Externals) (ssig : List Nat) (doc : Document)
    (replies : List Document) (e : Err)
    (h : verifyReply E ssig doc = .error e) :
    finishLoop E ssig doc replies = .error e := by
  cases replies <;> simp [finishLoop, h]

/-- One iteration of the loop: verification passed and the next reply is not
final, so the loop advances to it. -/
theorem finishLoop_step (E : Externals) (ssig : List Nat) (doc d : Document)
    (rest : List Document)
    (hv : verifyReply E ssig doc = .ok ())
    (hd : doneTrue d = false) :
    finishLoop E ssig doc (d :: rest) = finishLoop E ssig d rest := by
  simp [finishLoop, hv, hd]

/-- A successful loop consumed a reply whose done flag is the boolean true. -/
theorem finishLoop_any_done (E : Externals) (ssig : List Nat) :
    ∀ (replies : List Document) (doc : Document),
      finishLoop E ssig doc replies = .ok () → replies.any doneTrue = true := by
  intro replies
  induction replies with
  | nil =>
    intro doc h
    cases hv : verifyReply E ssig doc <;> simp [finishLoop, hv] at h
  | cons d rest ih =>
    intro doc h
    cases hv : verifyReply E ssig doc with
    | error e =>
      rw [finishLoop_error E ssig doc _ e hv] at h
      cases h
    | ok u =>
      cases u
      cases hd : doneTrue d with
      | true => simp [List.any_cons, hd]
      | false =>
        rw [finishLoop_step E ssig doc d rest hv hd] at h
        simp [List.any_cons, hd, ih d h]

/-- When no reply carries a binary payload the loop only looks for the done
flag and succeeds as soon as it finds it. -/
theorem finishLoop_skip (E : Externals) (ssig : List Nat) :
    ∀ (replies : List Document) (doc : Document),
      noBinaryPayload doc = true → replies.all noBinaryPayload = true →
      replies.any doneTrue = true → finishLoop E ssig doc replies = .ok () := by
  intro replies
  induction replies with
  | nil =>
    intro doc h1 h2 h3
    simp at h3
  | cons d rest ih =>
    intro doc h1 h2 h3
    have hv := verifyReply_skip E ssig doc h1
    have h2' : noBinaryPayload d = true ∧ rest.all noBinaryPayload = true := by
      simpa [List.all_cons] using h2
    cases hd : doneTrue d with
    | true => simp [finishLoop, hv, hd]
    | false =>
      rw [finishLoop_step E ssig doc d rest hv hd]
      have h3' : rest.any doneTrue = true := by
        simpa [List.any_cons, hd] using h3
      exact ih d h2'.1 h2'.2 h3'

/-- Characterization of a successful nextCompute run: the derived salted
password, the auth message and the document sent to the server. -/
theorem nextCompute_ok_fields (E : Externals) (pw : String)
    (initial : InitialData) (r sb : String) (salt : List Nat) (i : Nat)
    (out : NextOut)
    (hparse : scanServerFirst initial.response = (some r, some sb, some i))
    (hdec : E.b64decode sb = .ok salt)
    (hok : nextCompute E pw initial = .ok out) :
    out.salted_password =
      E.pbkdf2HmacSha1 (strBytes (codeHashedPassword E pw)) salt i 20 ∧
    out.auth_message =
      initial.message ++ "," ++ initial.response ++ "," ++ ("c=biws,r=" ++ r) ∧
    out.sendDoc =
      nextDoc (strBytes (("c=biws,r=" ++ r) ++ ",p=" ++
          E.b64encode (proofBytes E
            (E.pbkdf2HmacSha1 (strBytes (codeHashedPassword E pw)) salt i 20)
            (initial.message ++ "," ++ initial.response ++ "," ++ ("c=biws,r=" ++ r)))))
        initial.conversation_id := by
  unfold nextCompute at hok
  rw [hparse] at hok
  simp only [hdec] at hok
  by_cases hsw : strStartsWith r initial.nonce
  · simp only [hsw, Bool.not_true, Bool.false_eq_true, if_false] at hok
    by_cases hlen :
        (clientKey E (E.pbkdf2HmacSha1 (strBytes (codeHashedPassword E pw)) salt i 20)).length =
        (clientSignature E (E.pbkdf2HmacSha1 (strBytes (codeHashedPassword E pw)) salt i 20)
          (initial.message ++ "," ++ initial.response ++ "," ++ ("c=biws,r=" ++ r))).length
    · rw [if_neg (by simpa using hlen)] at hok
      injection hok with hok
      subst hok
      exact ⟨rfl, rfl, rfl⟩
    · rw [if_pos hlen] at hok
      exact Except.noConfusion hok
  · simp only [hsw] at hok
    exact Except.noConfusion hok

/-- Characterization of a successful start run: the client-first bare
message, the client nonce, and the conversation identifier copied verbatim
from the reply document. -/
theorem start_ok_fields (E : Externals) (user nonce : String)
    (t : Document → Except Err Document) (doc : Document)
    (initial : InitialData)
    (ht : t (startDoc user nonce) = .ok doc)
    (h : start E user (.ok nonce) t = .ok initial) :
    initial.message = clientFirstBare user nonce ∧
    initial.nonce = nonce ∧
    dget doc "conversationId" = some initial.conversation_id := by
  unfold start at h
  simp only [ht] at h
  cases hp : dget doc "payload" with
  | none =>
    simp only [hp] at h
    exact Except.noConfusion h
  | some v =>
    cases v with
    | binary data =>
      simp only [hp] at h
      cases hc : dget doc "conversationId" with
      | none =>
        simp only [hc] at h
        exact Except.noConfusion h
      | some id =>
        simp only [hc] at h
        cases hu : E.utf8decode data with
        | none =>
          simp only [hu] at h
          exact Except.noConfusion h
        | some response =>
          simp only [hu] at h
          injection h with h
          subst h
          exact ⟨rfl, rfl, rfl⟩
    | int n =>
      simp only [hp] at h
      exact Except.noConfusion h
    | str s =>
      simp only [hp] at h
      exact Except.noConfusion h
    | bool b =>
      simp only [hp] at h
      exact Except.noConfusion h
    | other n =>
      simp only [hp] at h
      exact Except.noConfusion h

/-- C2: when the parsed rnonce of the server-first text does not start with
the client's own nonce, next fails with MaliciousServerError InvalidRnonce.
The statement is quantified over the Externals instance and the password, so
the outcome is independent of every cryptographic primitive: no pbkdf2, hmac
or md5 computation influences the result, rendering that no cryptographic
work happens after the failed check. -/
theorem invalid_rnonce_aborts_before_crypto (E : Externals) (pw : String)
    (initial : InitialData) (r : String)
    (h1 : (scanServerFirst initial.response).1 = some r)
    (h2 : strStartsWith r initial.nonce = false) :
    nextCompute E pw initial = .error (.maliciousServer .invalidRnonce) := by
  unfold nextCompute
  simp only [h1, h2, Bool.not_false, if_true]

theorem invalid_rnonce_aborts_before_crypto_witness :
    (scanServerFirst wBadInitial.response).1 = some "X" ∧
    strStartsWith "X" wBadInitial.nonce = false ∧
    nextCompute testExternals "p" wBadInitial =
      .error (.maliciousServer .invalidRnonce) :=
  ⟨rfl, rfl,
   invalid_rnonce_aborts_before_crypto testExternals "p" wBadInitial "X" rfl rfl⟩

/-- C3: the derived key material of a successful phase-2 run equals the
reference definition: the hashed password is the lower-case hex of the MD5
digest of user, the literal separator :mongo:, and password (auth passes
exactly that concatenation into next), and the salted password is
PBKDF2-HMAC-SHA1 of the hashed-password bytes with the decoded salt, the
parsed iteration count, and 20 output bytes. -/
theorem derived_key_matches_reference (E : Externals) (user pw : String)
    (initial : InitialData) (r sb : String) (salt : List Nat) (i : Nat)
    (out : NextOut)
    (hparse : scanServerFirst initial.response = (some r, some sb, some i))
    (hdec : E.b64decode sb = .ok salt)
    (hok : nextCompute E (fullPassword user pw) initial = .ok out) :
    codeHashedPassword E (fullPassword user pw) = specHashedPassword E user pw ∧
    out.salted_password = specSaltedKey E user pw salt i := by
  refine ⟨rfl, ?_⟩
  have h := nextCompute_ok_fields E (fullPassword user pw) initial r sb salt i
    out hparse hdec hok
  exact h.1

theorem derived_key_matches_reference_witness :
    scanServerFirst wInitial.response = (some "N1", some "QQ==", some 2) ∧
    testExternals.b64decode "QQ==" = .ok [65] ∧
    nextCompute testExternals (fullPassword "u" "p") wInitial = .ok wNextOut ∧
    (codeHashedPassword testExternals (fullPassword "u" "p") =
       specHashedPassword testExternals "u" "p" ∧
     wNextOut.salted_password = specSaltedKey testExternals "u" "p" [65] 2) :=
  ⟨rfl, rfl, rfl,
   derived_key_matches_reference testExternals "u" "p" wInitial "N1" "QQ=="
     [65] 2 wNextOut rfl rfl rfl⟩

/-- C4: the auth message of a successful phase-2 run is the exact comma-joined
concatenation of the client-first bare message (built by phase 1 as
n=user,r=nonce), the raw server-first text, and the without-proof part
c=biws,r=rnonce with the server-confirmed nonce; the same string is stored
in AuthData and finish keys the server-signature computation with it. -/
theorem auth_message_exact_concat (E : Externals) (user nonce pw : String)
    (t1 t2 : Document → Except Err Document) (doc : Document)
    (initial : InitialData) (ad : AuthData) (r sb : String) (salt : List Nat)
    (i : Nat) (cid : BsonValue) (replies : List Document)
    (ht1 : t1 (startDoc user nonce) = .ok doc)
    (hstart : start E user (.ok nonce) t1 = .ok initial)
    (hparse : scanServerFirst initial.response = (some r, some sb, some i))
    (hdec : E.b64decode sb = .ok salt)
    (hnext : next E pw initial t2 = .ok ad) :
    initial.message = "n=" ++ user ++ ",r=" ++ nonce ∧
    ad.message =
      initial.message ++ "," ++ initial.response ++ "," ++ ("c=biws,r=" ++ r) ∧
    finish E cid ad replies =
      finishLoop E (serverSignature E ad.salted_password ad.message)
        ad.response replies := by
  refine ⟨(start_ok_fields E user nonce t1 doc initial ht1 hstart).1, ?_, rfl⟩
  unfold next at hnext
  cases hnc : nextCompute E pw initial with
  | error e =>
    simp only [hnc] at hnext
    exact Except.noConfusion hnext
  | ok out =>
    simp only [hnc] at hnext
    cases htr : t2 out.sendDoc with
    | error e =>
      simp only [htr] at hnext
      exact Except.noConfusion hnext
    | ok resp =>
      simp only [htr] at hnext
      injection hnext with hnext
      subst hnext
      exact (nextCompute_ok_fields E pw initial r sb salt i out hparse hdec hnc).2.1

theorem auth_message_exact_concat_witness :
    (fun _ => Except.ok wStartReply : Document → Except Err Document)
        (startDoc "u" "N") = .ok wStartReply ∧
    start testExternals "u" (.ok "N") (fun _ => .ok wStartReply) = .ok wInitial ∧
    scanServerFirst wInitial.response = (some "N1", some "QQ==", some 2) ∧
    testExternals.b64decode "QQ==" = .ok [65] ∧
    next testExternals (fullPassword "u" "p") wInitial (fun _ => .ok []) =
      .ok wAuthData ∧
    (wInitial.message = "n=" ++ "u" ++ ",r=" ++ "N" ∧
     wAuthData.message =
       wInitial.message ++ "," ++ wInitial.response ++ "," ++ ("c=biws,r=" ++ "N1") ∧
     finish testExternals (.other 7) wAuthData [wDoneDoc] =
       finishLoop testExternals
         (serverSignature testExternals wAuthData.salted_password wAuthData.message)
         wAuthData.response [wDoneDoc]) :=
  ⟨rfl, rfl, rfl, rfl, rfl,
   auth_message_exact_concat testExternals "u" "N" (fullPassword "u" "p")
     (fun _ => .ok wStartReply) (fun _ => .ok []) wStartReply wInitial
     wAuthData "N1" "QQ==" [65] 2 (.other 7) [wDoneDoc] rfl rfl rfl rfl rfl⟩

/-- C5: the proof of phase 2 is the byte-wise xor of the client key and the
client signature, and xor round-trips: xoring the proof with the client
signature again recovers the client key.  The length hypothesis is exactly
the sanity check next performs before building the proof. -/
theorem proof_xor_roundtrip (E : Externals) (sp : List Nat) (msg : String)
    (hlen : (clientKey E sp).length = (clientSignature E sp msg).length) :
    proofBytes E sp msg =
      List.zipWith Nat.xor (clientKey E sp) (clientSignature E sp msg) ∧
    List.zipWith Nat.xor (proofBytes E sp msg) (clientSignature E sp msg) =
      clientKey E sp :=
  ⟨rfl, zipWith_xor_cancel _ _ hlen⟩

theorem proof_xor_roundtrip_witness :
    (clientKey testExternals []).length =
      (clientSignature testExternals [] "").length ∧
    (proofBytes testExternals [] "" =
       List.zipWith Nat.xor (clientKey testExternals [])
         (clientSignature testExternals [] "") ∧
     List.zipWith Nat.xor (proofBytes testExternals [] "")
         (clientSignature testExternals [] "") = clientKey testExternals []) :=
  ⟨rfl, proof_xor_roundtrip testExternals [] "" rfl⟩

/-- C1 counterexample: a phase-3 continuation reply that carries a binary
payload whose v= value mismatches the computed server signature, together
with a done flag that is the boolean true, makes finish return Ok without
any malicious-server error: the done check of the loop precedes the
verification of a newly received reply, so that reply is never verified. -/
theorem finish_ok_despite_bad_signature_on_done_reply :
    dget [("payload", BsonValue.binary (strBytes "v=A")), ("done", BsonValue.bool true)]
        "payload" = some (.binary (strBytes "v=A")) ∧
    testExternals.utf8decode (strBytes "v=A") = some "v=A" ∧
    scanV "v=A" = some "A" ∧
    ("A" == testExternals.b64encode (serverSignature testExternals [] "")) = false ∧
    finish testExternals (.other 7) ⟨[], "", []⟩
        [[("payload", .binary (strBytes "v=A")), ("done", .bool true)]] = .ok () :=
  ⟨rfl, rfl, rfl, rfl, rfl⟩

/-- C1 amended: every reply document that the verification step of phase 3
examines (the phase-2 response at the first iteration, and afterwards each
continuation reply whose done flag was not the boolean true) and that
carries a binary payload yields MaliciousServerError NoServerSignature when
the decoded payload has no parseable v= field, and MaliciousServerError
InvalidServerSignature when the v= value differs from the base64 encoding of
the computed server signature; a conversation whose currently examined reply
fails this way ends with that error, never with success. -/
theorem verified_reply_signature_errors (E : Externals) (d : Document)
    (pl : List Nat) (s : String) (sp : List Nat) (msg : String)
    (cid : BsonValue) (replies : List Document) (v : String)
    (hp : dget d "payload" = some (.binary pl))
    (hu : E.utf8decode pl = some s)
    (hbad : scanV s = none ∨
      (scanV s = some v ∧ v ≠ E.b64encode (serverSignature E sp msg))) :
    finishLoop E (serverSignature E sp msg) d replies =
      .error (.maliciousServer (if scanV s = none
        then .noServerSignature else .invalidServerSignature)) ∧
    finish E cid ⟨sp, msg, d⟩ replies =
      .error (.maliciousServer (if scanV s = none
        then .noServerSignature else .invalidServerSignature)) := by
  have hv : verifyReply E (serverSignature E sp msg) d =
      .error (.maliciousServer (if scanV s = none
        then .noServerSignature else .invalidServerSignature)) := by
    unfold verifyReply
    rw [hp]
    simp only [hu]
    rcases hbad with hn | hvs
    · simp [hn]
    · simp [hvs.1, hvs.2]
  refine ⟨finishLoop_error _ _ _ _ _ hv, ?_⟩
  unfold finish
  exact finishLoop_error _ _ _ _ _ hv

theorem verified_reply_signature_errors_witness :
    dget [("payload", BsonValue.binary (strBytes "v=A"))] "payload" =
      some (.binary (strBytes "v=A")) ∧
    testExternals.utf8decode (strBytes "v=A") = some "v=A" ∧
    (scanV "v=A" = none ∨
      (scanV "v=A" = some "A" ∧
       "A" ≠ testExternals.b64encode (serverSignature testExternals [] ""))) ∧
    finish testExternals (.other 7)
        ⟨[], "", [("payload", .binary (strBytes "v=A"))]⟩ [] =
      .error (.maliciousServer (if scanV "v=A" = none
        then .noServerSignature else .invalidServerSignature)) := by
  have hbad : scanV "v=A" = none ∨
      (scanV "v=A" = some "A" ∧
       "A" ≠ testExternals.b64encode (serverSignature testExternals [] "")) :=
    Or.inr ⟨rfl, by decide⟩
  exact ⟨rfl, rfl, hbad,
    (verified_reply_signature_errors testExternals
      [("payload", .binary (strBytes "v=A"))] (strBytes "v=A") "v=A" [] ""
      (.other 7) [] "A" rfl rfl hbad).2⟩

/-- C6 counterexample: on the server-first text r=X (salt and iteration
fields both missing) with client nonce N, next returns MaliciousServerError
InvalidRnonce, not a ResponseError: the malicious-rnonce check precedes the
missing-salt check, so the claim's unconditional ResponseError is wrong
here. -/
theorem missing_salt_with_bad_rnonce_not_response_error :
    scanServerFirst wBadInitial.response = (some "X", none, none) ∧
    nextCompute testExternals "p" wBadInitial =
      .error (.maliciousServer .invalidRnonce) ∧
    isRespErr (nextCompute testExternals "p" wBadInitial) = false :=
  ⟨rfl, rfl, rfl⟩

/-- C6 amended: provided the parsed rnonce passes the client-nonce check
(which takes precedence), every parse failure of the server-first layout
yields a ResponseError: missing rnonce, missing salt, missing or invalid
iteration count, or a salt that fails base64 decoding; next then fails
before any proof is sent, whatever the transport would answer. -/
theorem parse_failures_response_error (E : Externals) (pw : String)
    (initial : InitialData) (t : Document → Except Err Document)
    (rq sq : Option String) (iq : Option Nat)
    (hparse : scanServerFirst initial.response = (rq, sq, iq))
    (hrn : rnonceOk rq initial.nonce = true)
    (hbad : rq = none ∨ sq = none ∨ iq = none ∨ saltDecodeFails E sq = true) :
    isRespErr (nextCompute E pw initial) = true ∧
    isRespErr (next E pw initial t) = true := by
  suffices h : ∃ m, nextCompute E pw initial = .error (.responseError m) by
    obtain ⟨m, hm⟩ := h
    refine ⟨by rw [hm]; rfl, ?_⟩
    unfold next
    rw [hm]
    rfl
  rcases hbad with h0 | h0 | h0 | h0
  · subst h0
    exact ⟨"Invalid rnonce returned", by simp [nextCompute, hparse]⟩
  · subst h0
    rcases rq with _ | r
    · exact ⟨"Invalid rnonce returned", by simp [nextCompute, hparse]⟩
    · have hr : strStartsWith r initial.nonce = true := hrn
      exact ⟨"Invalid salt returned", by simp [nextCompute, hparse, hr]⟩
  · subst h0
    rcases rq with _ | r
    · exact ⟨"Invalid rnonce returned", by simp [nextCompute, hparse]⟩
    · have hr : strStartsWith r initial.nonce = true := hrn
      rcases sq with _ | sb
      · exact ⟨"Invalid salt returned", by simp [nextCompute, hparse, hr]⟩
      · rcases hd : E.b64decode sb with e | salt
        · exact ⟨"Invalid base64 salt returned: " ++ e,
            by simp [nextCompute, hparse, hr, hd]⟩
        · exact ⟨"Invalid iteration count returned",
            by simp [nextCompute, hparse, hr, hd]⟩
  · rcases sq with _ | sb
    · simp [saltDecodeFails] at h0
    · rcases hd : E.b64decode sb with e | salt
      · rcases rq with _ | r
        · exact ⟨"Invalid rnonce returned", by simp [nextCompute, hparse]⟩
        · have hr : strStartsWith r initial.nonce = true := hrn
          exact ⟨"Invalid base64 salt returned: " ++ e,
            by simp [nextCompute, hparse, hr, hd]⟩
      · simp [saltDecodeFails, hd] at h0

theorem parse_failures_response_error_witness :
    scanServerFirst wNoParse.response = (none, none, none) ∧
    rnonceOk none wNoParse.nonce = true ∧
    (isRespErr (nextCompute testExternals "p" wNoParse) = true ∧
     isRespErr (next testExternals "p" wNoParse (fun _ => .ok [])) = true) :=
  ⟨rfl, rfl,
   parse_failures_response_error testExternals "p" wNoParse (fun _ => .ok [])
     none none none rfl rfl (Or.inl rfl)⟩

/-- C7: finish reports success only when a reply to one of the empty-payload
continuation commands has a done flag equal to the boolean true; the
continuation command indeed carries an empty binary payload. -/
theorem finish_ok_requires_done_reply (E : Externals) (cid : BsonValue)
    (ad : AuthData) (replies : List Document)
    (h : finish E cid ad replies = .ok ()) :
    replies.any doneTrue = true ∧
    dget (finalDoc cid) "payload" = some (.binary []) := by
  refine ⟨?_, rfl⟩
  unfold finish at h
  exact finishLoop_any_done E _ replies ad.response h

theorem finish_ok_requires_done_reply_witness :
    finish testExternals (.other 7) ⟨[], "", []⟩ [wDoneDoc] = .ok () ∧
    ([wDoneDoc].any doneTrue = true ∧
     dget (finalDoc (.other 7)) "payload" = some (.binary [])) :=
  ⟨rfl,
   finish_ok_requires_done_reply testExternals (.other 7) ⟨[], "", []⟩
     [wDoneDoc] rfl⟩

/-- C8: the conversation identifier of the first server reply is forwarded
unchanged: start copies it verbatim into InitialData, the phase-2
saslContinue document carries exactly that value, and the phase-3 empty
continuation document carries exactly that value; the identifier is an
arbitrary Bson value throughout. -/
theorem conversation_id_forwarded_unchanged (E : Externals)
    (user nonce pw : String) (t : Document → Except Err Document)
    (doc : Document) (initial : InitialData) (r sb : String) (salt : List Nat)
    (i : Nat) (out : NextOut)
    (ht : t (startDoc user nonce) = .ok doc)
    (hstart : start E user (.ok nonce) t = .ok initial)
    (hparse : scanServerFirst initial.response = (some r, some sb, some i))
    (hdec : E.b64decode sb = .ok salt)
    (hnc : nextCompute E pw initial = .ok out) :
    dget doc "conversationId" = some initial.conversation_id ∧
    dget out.sendDoc "conversationId" = some initial.conversation_id ∧
    dget (finalDoc initial.conversation_id) "conversationId" =
      some initial.conversation_id := by
  refine ⟨(start_ok_fields E user nonce t doc initial ht hstart).2.2, ?_, rfl⟩
  have hf := nextCompute_ok_fields E pw initial r sb salt i out hparse hdec hnc
  rw [hf.2.2]
  rfl

theorem conversation_id_forwarded_unchanged_witness :
    (fun _ => Except.ok wStartReply : Document → Except Err Document)
        (startDoc "u" "N") = .ok wStartReply ∧
    start testExternals "u" (.ok "N") (fun _ => .ok wStartReply) = .ok wInitial ∧
    nextCompute testExternals (fullPassword "u" "p") wInitial = .ok wNextOut ∧
    (dget wStartReply "conversationId" = some wInitial.conversation_id ∧
     dget wNextOut.sendDoc "conversationId" = some wInitial.conversation_id ∧
     dget (finalDoc wInitial.conversation_id) "conversationId" =
       some wInitial.conversation_id) :=
  ⟨rfl, rfl, rfl,
   conversation_id_forwarded_unchanged testExternals "u" "N"
     (fullPassword "u" "p") (fun _ => .ok wStartReply) wStartReply wInitial
     "N1" "QQ==" [65] 2 wNextOut rfl rfl rfl rfl rfl⟩

/-- C9: when neither the phase-2 response nor any phase-3 continuation reply
carries a binary payload field, and some continuation reply has a done flag
equal to the boolean true, finish succeeds.  The statement is quantified
over the Externals instance, the salted password and the auth message, so
success is independent of every signature value: the server-signature
comparison is skipped entirely and mutual authentication never happens. -/
theorem no_payload_skips_verification (E : Externals) (cid : BsonValue)
    (sp : List Nat) (msg : String) (resp : Document)
    (replies : List Document)
    (hresp : noBinaryPayload resp = true)
    (hall : replies.all noBinaryPayload = true)
    (hdone : replies.any doneTrue = true) :
    finish E cid ⟨sp, msg, resp⟩ replies = .ok () := by
  unfold finish
  exact finishLoop_skip E _ replies resp hresp hall hdone

theorem no_payload_skips_verification_witness :
    noBinaryPayload ([] : Document) = true ∧
    [wDoneDoc].all noBinaryPayload = true ∧
    [wDoneDoc].any doneTrue = true ∧
    finish testExternals (.other 7) ⟨[], "", []⟩ [wDoneDoc] = .ok () :=
  ⟨rfl, rfl, rfl,
   no_payload_skips_verification testExternals (.other 7) [] "" [] [wDoneDoc]
     rfl rfl rfl⟩

/-- C10: success needs at least one continuation reply: with no reply to an
empty continuation, finish never returns Ok, even when the phase-2 response
itself reports done true; and the done flag of the phase-2 response is never
inspected: two responses agreeing on their payload field give finish the
same result whatever their done fields. -/
theorem success_requires_continuation (E : Externals) (cid : BsonValue)
    (sp : List Nat) (msg : String) (d d' : Document)
    (replies : List Document)
    (hp : dget d "payload" = dget d' "payload") :
    exceptOk (finish E cid ⟨sp, msg, d⟩ []) = false ∧
    finish E cid ⟨sp, msg, d⟩ replies = finish E cid ⟨sp, msg, d'⟩ replies := by
  constructor
  · unfold finish
    cases hv : verifyReply E (serverSignature E sp msg) d <;>
      simp [finishLoop, hv, exceptOk]
  · unfold finish
    have hc := verifyReply_congr E (serverSignature E sp msg) d d' hp
    cases replies with
    | nil =>
      simp only [finishLoop]
      rw [hc]
    | cons a rest =>
      simp only [finishLoop]
      rw [hc]

theorem success_requires_continuation_witness :
    dget wDoneDoc "payload" = dget ([] : Document) "payload" ∧
    (exceptOk (finish testExternals (.other 7) ⟨[], "", wDoneDoc⟩ []) = false ∧
     finish testExternals (.other 7) ⟨[], "", wDoneDoc⟩ [wDoneDoc] =
       finish testExternals (.other 7) ⟨[], "", []⟩ [wDoneDoc]) :=
  ⟨rfl,
   success_requires_continuation testExternals (.other 7) [] "" wDoneDoc []
     [wDoneDoc] rfl⟩

end MongoAuth
